import Mathlib

/-!
Shallow embedding of `check_sensu_events.py` (nagios-plugins-sensu).

The check's core is `format_json_and_exit` (lines 126-241): it iterates the
decoded event list, filters events by a client-name regular expression,
matches the remaining events against the stash (silence) list, accumulates
per-severity counts and detail lines, and derives the final output string and
process exit code.

The compiled regular expression is embedded as its match function
`cf : String → Bool` (the value of `client_filter.match(name) is not None`);
the regex engine itself is Python's `re` library, external to the repository.
Event and stash records are embedded twice: `Event`/`Stash` carry the fields
the loop reads, for well-formed inputs, and `RawEvent` mirrors the dictionary
accesses (`event.get('check')`, `client['name']`, ...) so that the behavior on
records with missing fields is also captured, in the `Except` monad.
-/

namespace SensuCheck

/-- Lines 37-40: the four nagios states. -/
def STATE_OK : Nat := 0

def STATE_WARNING : Nat := 1

def STATE_CRITICAL : Nat := 2

def STATE_UNKNOWN : Nat := 3

/-- A well-formed event record: the fields `format_json_and_exit` reads
(`client['name']`, `check['name']`, `check['status']`, `check['output']`). -/
structure Event where
  clientName : String
  checkName : String
  status : Nat
  output : String
deriving DecidableEq

/-- A stash (silence) record: the loop reads only `stash['path']` (line 180). -/
structure Stash where
  path : String
deriving DecidableEq

/-- Substring containment on character lists: `needle` occurs somewhere inside
`haystack`.  This is the semantics of Python's `in` operator on strings
(line 180). -/
def listContainsSub (haystack needle : List Char) : Bool :=
  if needle.isPrefixOf haystack then true
  else
    match haystack with
    | [] => false
    | _ :: t => listContainsSub t needle

/-- Python `needle in haystack` on strings. -/
def strContains (haystack needle : String) : Bool :=
  listContainsSub haystack.toList needle.toList

/-- Line 180: `'/'.join(['silence', client['name'], check['name']])`. -/
def silencePath (client check : String) : String :=
  "silence/" ++ client ++ "/" ++ check

/-- Lines 178-181, condensed: some stash's `path` contains the silence needle
for this client/check pair as a substring. -/
def isSilenced (client check : String) (stashes : List Stash) : Bool :=
  stashes.any fun s => strContains s.path (silencePath client check)

/-- Number of stash entries whose `path` matches the event's silence needle;
the loop of lines 178-182 runs `stash_count += 1` once per such entry. -/
def matchCount (stashes : List Stash) (client check : String) : Nat :=
  (stashes.filter fun s => strContains s.path (silencePath client check)).length

/-- The inner loop of lines 178-182 over the stash list: returns the final
value of `in_stash` and the total increment applied to `stash_count`. -/
def stashScan (stashes : List Stash) (needle : String) : Bool × Nat :=
  stashes.foldl
    (fun acc s => if strContains s.path needle then (true, acc.2 + 1) else acc)
    (false, 0)

/-- Lines 188-190 (also 195-197, 202-204): one detail line
`"%s - %s: %s\n" % (client['name'], check['name'], check['output'])`. -/
def fmtLine (e : Event) : String :=
  e.clientName ++ " - " ++ e.checkName ++ ": " ++ e.output ++ "\n"

/-- The mutable counters and the `nagios_output_ext` accumulator of
lines 147-153. -/
structure Acc where
  critCount : Nat
  warnCount : Nat
  unknownCount : Nat
  stashCount : Nat
  filterCount : Nat
  ext : String
deriving DecidableEq

/-- Initial accumulator values (lines 147-153). -/
def initAcc : Acc := ⟨0, 0, 0, 0, 0, ""⟩

/-- The body of the event loop, lines 162-204, for one event.  `cf name` is
`client_filter.match(name) is not None`.  The redundant `and not in_stash`
conjuncts of lines 186, 193, 200 are subsumed by the guard of line 184. -/
def processEvent (cf : String → Bool) (stashes : List Stash) (a : Acc)
    (e : Event) : Acc :=
  if cf e.clientName = false then
    { a with filterCount := a.filterCount + 1 }
  else
    let scan := stashScan stashes (silencePath e.clientName e.checkName)
    let a1 := { a with stashCount := a.stashCount + scan.2 }
    if scan.1 then a1
    else
      let a2 :=
        if e.status = STATE_CRITICAL then
          { a1 with critCount := a1.critCount + 1, ext := a1.ext ++ fmtLine e }
        else a1
      let a3 :=
        if e.status = STATE_WARNING then
          { a2 with warnCount := a2.warnCount + 1, ext := a2.ext ++ fmtLine e }
        else a2
      if e.status = STATE_UNKNOWN then
        { a3 with unknownCount := a3.unknownCount + 1, ext := a3.ext ++ fmtLine e }
      else a3

/-- The whole event loop of lines 162-204. -/
def classifyEvents (cf : String → Bool) (stashes : List Stash)
    (events : List Event) : Acc :=
  events.foldl (processEvent cf stashes) initAcc

/-- Lines 146-241 of `format_json_and_exit` on well-formed records: returns
the printed text and the exit code.  Python truthiness `if warn_count:` is
`warnCount ≠ 0`; each later `if` overwrites the summary and exit code chosen
by an earlier one, so the stash/filter branch of lines 228-231 has the last
word. -/
def formatJsonAndExit (events : List Event) (stashes : List Stash)
    (info : Option String) (cf : String → Bool) : String × Nat :=
  let r0 : String × Nat := ("", STATE_UNKNOWN)
  let r1 :=
    if events.isEmpty then
      ("OK: no ongoing events returned by Sensu API.\n", STATE_OK)
    else r0
  let a := classifyEvents cf stashes events
  let r2 :=
    if a.warnCount ≠ 0 then
      ("WARNING: " ++ toString a.warnCount ++
        " warning events in the Sensu platform.", STATE_WARNING)
    else r1
  let r3 :=
    if a.critCount ≠ 0 then
      ("CRITICAL: " ++ toString a.critCount ++
        " critical events in the Sensu platform.", STATE_CRITICAL)
    else r2
  let r4 :=
    if a.unknownCount ≠ 0 then
      ("UNKNOWN: " ++ toString a.unknownCount ++
        " unknown events in the Sensu platform.", STATE_UNKNOWN)
    else r3
  let r5 :=
    if (a.stashCount ≠ 0 ∨ a.filterCount ≠ 0) ∧
        (a.stashCount = events.length ∨ a.filterCount = events.length) then
      ("OK: no ongoing events returned by Sensu API.", STATE_OK)
    else r4
  let out := r5.1 ++ " (" ++ toString a.stashCount ++ " in stash & " ++
    toString a.filterCount ++ " filtered.)\n" ++ a.ext
  let out :=
    match info with
    | some i => if i.isEmpty then out else out ++ i
    | none => out
  (out, r5.2)

/-- The match function of the default pattern `".*"`: matches every client
name. -/
def cfTrue : String → Bool := fun _ => true

/-- Concatenation of a list of strings, in order. -/
def strConcat : List String → String
  | [] => ""
  | s :: r => s ++ strConcat r

/-- An event is in scope (client filter matches) and not silenced: exactly
when the guard of line 184 lets it reach severity classification. -/
def active (cf : String → Bool) (stashes : List Stash) (e : Event) : Bool :=
  cf e.clientName && !(isSilenced e.clientName e.checkName stashes)

/-- Contribution of one event to `filter_count`. -/
def deltaFilter (cf : String → Bool) (e : Event) : Nat :=
  if cf e.clientName then 0 else 1

/-- Contribution of one event to `stash_count`: one increment per matching
stash entry, and the stash loop runs only for in-scope events. -/
def deltaStash (cf : String → Bool) (stashes : List Stash) (e : Event) : Nat :=
  if cf e.clientName then matchCount stashes e.clientName e.checkName else 0

/-- Contribution of one event to `crit_count`. -/
def deltaCrit (cf : String → Bool) (stashes : List Stash) (e : Event) : Nat :=
  if active cf stashes e && (e.status == STATE_CRITICAL) then 1 else 0

/-- Contribution of one event to `warn_count`. -/
def deltaWarn (cf : String → Bool) (stashes : List Stash) (e : Event) : Nat :=
  if active cf stashes e && (e.status == STATE_WARNING) then 1 else 0

/-- Contribution of one event to `unknown_count`. -/
def deltaUnknown (cf : String → Bool) (stashes : List Stash) (e : Event) : Nat :=
  if active cf stashes e && (e.status == STATE_UNKNOWN) then 1 else 0

/-- Contribution of one event to `nagios_output_ext`. -/
def deltaLine (cf : String → Bool) (stashes : List Stash) (e : Event) : String :=
  if active cf stashes e &&
      (e.status == STATE_CRITICAL || e.status == STATE_WARNING ||
        e.status == STATE_UNKNOWN) then
    fmtLine e
  else ""

/-- Modelled from the spec: the OK severity count of §3/§8.  The source keeps
no counter for OK-status events (lines 184-204 count only CRITICAL, WARNING,
UNKNOWN), so the spec's fourth severity count is defined here from the spec's
classification rules: in-scope, non-silenced events whose status is OK. -/
def okCount (cf : String → Bool) (stashes : List Stash)
    (events : List Event) : Nat :=
  (events.filter fun e => active cf stashes e && (e.status == STATE_OK)).length

/-- A raw check dictionary: every field `format_json_and_exit` may look up is
optional, as in a decoded JSON object. -/
structure RawCheck where
  name : Option String
  status : Option Nat
  output : Option String
deriving DecidableEq

/-- A raw client dictionary. -/
structure RawClient where
  name : Option String
deriving DecidableEq

/-- A raw event dictionary: `event.get('check')` and `event.get('client')`
return `None` when the key is absent. -/
structure RawEvent where
  check : Option RawCheck
  client : Option RawClient
deriving DecidableEq

/-- Look up a dictionary key with `d['k']` semantics: `KeyError` if absent. -/
def getItem (o : Option α) (err : String) : Except String α :=
  match o with
  | some x => Except.ok x
  | none => Except.error err

/-- The stash loop of lines 178-182 on a raw event: the silence needle is
re-built on every iteration, so `check['name']` raises `KeyError` only when
the stash list is non-empty. -/
def stashLoopRaw (clientName : String) (checkName : Option String) :
    List Stash → Except String (Bool × Nat)
  | [] => Except.ok (false, 0)
  | s :: rest => do
    let ck ← getItem checkName "KeyError"
    let r ← stashLoopRaw clientName checkName rest
    if strContains s.path (silencePath clientName ck) then
      Except.ok (true, r.2 + 1)
    else
      Except.ok r

/-- The loop body of lines 162-204 on a raw event.  `check.get('status')` on
line 168 raises `AttributeError` when the event has no `check` key (then
`check` is `None`); `client['name']` on line 173 raises `TypeError` when
`client` is `None` and `KeyError` when the `name` key is absent; a missing
`status` yields `None`, which compares unequal to every state constant. -/
def processEventRaw (cf : String → Bool) (stashes : List Stash) (a : Acc)
    (e : RawEvent) : Except String Acc := do
  let check ← getItem e.check "AttributeError"
  let status := check.status
  let client ← getItem e.client "TypeError"
  let clientName ← getItem client.name "KeyError"
  if cf clientName = false then
    return { a with filterCount := a.filterCount + 1 }
  else
    let scan ← stashLoopRaw clientName check.name stashes
    let a1 := { a with stashCount := a.stashCount + scan.2 }
    if scan.1 then
      return a1
    else
      let a2 ←
        if status = some STATE_CRITICAL then do
          let ck ← getItem check.name "KeyError"
          let o ← getItem check.output "KeyError"
          let line := clientName ++ " - " ++ ck ++ ": " ++ o ++ "\n"
          Except.ok { a1 with critCount := a1.critCount + 1, ext := a1.ext ++ line }
        else Except.ok a1
      let a3 ←
        if status = some STATE_WARNING then do
          let ck ← getItem check.name "KeyError"
          let o ← getItem check.output "KeyError"
          let line := clientName ++ " - " ++ ck ++ ": " ++ o ++ "\n"
          Except.ok { a2 with warnCount := a2.warnCount + 1, ext := a2.ext ++ line }
        else Except.ok a2
      if status = some STATE_UNKNOWN then do
        let ck ← getItem check.name "KeyError"
        let o ← getItem check.output "KeyError"
        let line := clientName ++ " - " ++ ck ++ ": " ++ o ++ "\n"
        Except.ok { a3 with unknownCount := a3.unknownCount + 1, ext := a3.ext ++ line }
      else Except.ok a3

/-- Lines 146-241 on raw records: an uncaught Python exception from the loop
is an `Except.error`, which propagates out of `format_json_and_exit` to the
handler of lines 322-329. -/
def formatJsonAndExitRaw (events : List RawEvent) (stashes : List Stash)
    (info : Option String) (cf : String → Bool) :
    Except String (String × Nat) := do
  let r0 : String × Nat := ("", STATE_UNKNOWN)
  let r1 :=
    if events.isEmpty then
      ("OK: no ongoing events returned by Sensu API.\n", STATE_OK)
    else r0
  let a ← events.foldlM (processEventRaw cf stashes) initAcc
  let r2 :=
    if a.warnCount ≠ 0 then
      ("WARNING: " ++ toString a.warnCount ++
        " warning events in the Sensu platform.", STATE_WARNING)
    else r1
  let r3 :=
    if a.critCount ≠ 0 then
      ("CRITICAL: " ++ toString a.critCount ++
        " critical events in the Sensu platform.", STATE_CRITICAL)
    else r2
  let r4 :=
    if a.unknownCount ≠ 0 then
      ("UNKNOWN: " ++ toString a.unknownCount ++
        " unknown events in the Sensu platform.", STATE_UNKNOWN)
    else r3
  let r5 :=
    if (a.stashCount ≠ 0 ∨ a.filterCount ≠ 0) ∧
        (a.stashCount = events.length ∨ a.filterCount = events.length) then
      ("OK: no ongoing events returned by Sensu API.", STATE_OK)
    else r4
  let out := r5.1 ++ " (" ++ toString a.stashCount ++ " in stash & " ++
    toString a.filterCount ++ " filtered.)\n" ++ a.ext
  let out :=
    match info with
    | some i => if i.isEmpty then out else out ++ i
    | none => out
  return (out, r5.2)

/-- The call path around line 160: `get_events` fetches the event and stash
lists first (lines 300-310) and only then calls `format_json_and_exit`, whose
`re.compile(filter)` may raise.  The compiled pattern is embedded as
`Except String (String → Bool)`: an `sre` compile error on an invalid pattern
propagates out of the call. -/
def formatJsonAndExitCompiled (events : List Event) (stashes : List Stash)
    (info : Option String) (compiled : Except String (String → Bool)) :
    Except String (String × Nat) :=
  match compiled with
  | Except.error e => Except.error e
  | Except.ok cf => Except.ok (formatJsonAndExit events stashes info cf)

/-- Lines 322-329: any exception escaping `get_events` is caught by the
top-level handler, which prints `"CRITICAL: %s"` and exits `STATE_CRITICAL`;
a normal `sys.exit` passes through with its code. -/
def mainExitCode (r : Except String (String × Nat)) : Nat :=
  match r with
  | Except.error _ => STATE_CRITICAL
  | Except.ok p => p.2

/-- A silenced OK-status event used in the duplicate-stash inputs. -/
def evSilencedOk : Event := ⟨"a", "c", STATE_OK, "fine"⟩

/-- An in-scope, non-silenced CRITICAL event. -/
def evCritical : Event := ⟨"b", "d", STATE_CRITICAL, "boom"⟩

/-- An in-scope, non-silenced UNKNOWN event. -/
def evUnknown : Event := ⟨"b", "d", STATE_UNKNOWN, "lost"⟩

/-- Two identical stash entries silencing client `a`, check `c`. -/
def dupStashes : List Stash := [⟨"silence/a/c"⟩, ⟨"silence/a/c"⟩]

/-- A single stash entry silencing client `a`, check `c`. -/
def oneStash : List Stash := [⟨"silence/a/c"⟩]

/-- Match function of a pattern matching only client `b`. -/
def cfOnlyB : String → Bool := fun s => s == "b"

/-- An event whose client name the `cfOnlyB` filter rejects. -/
def evFilteredX : Event := ⟨"x", "c", STATE_OK, "o"⟩

/-- An OK-status event for client `b`, check `d`, silenced by `stashB`. -/
def evSilencedB : Event := ⟨"b", "d", STATE_OK, "o"⟩

/-- A stash entry silencing client `b`, check `d`. -/
def stashB : List Stash := [⟨"silence/b/d"⟩]

/-- An in-scope, non-silenced event whose status is outside 0..3. -/
def evStatusSeven : Event := ⟨"a", "c", 7, "odd"⟩

/-- A raw event with a `client` dictionary but no `check` key. -/
def rawMissingCheck : RawEvent := ⟨none, some ⟨some "a"⟩⟩

/-- `listContainsSub` decides the infix (substring) relation. -/
theorem listContainsSub_iff_infixOf (n : List Char) :
    ∀ h : List Char, listContainsSub h n = true ↔ n <:+: h := by
  intro h
  induction h with
  | nil =>
    rw [listContainsSub]
    constructor
    · intro hc
      by_cases hp : n.isPrefixOf ([] : List Char)
      · exact (( List.isPrefixOf_iff_prefix).mp hp).isInfix
      · simp [hp] at hc
    · intro hi
      have hn := ( List.infix_nil).mp hi
      subst hn
      simp
  | cons c t ih =>
    rw [listContainsSub]
    by_cases hp : n.isPrefixOf (c :: t)
    · simp only [hp, if_true, true_iff]
      exact (( List.isPrefixOf_iff_prefix).mp hp).isInfix
    · simp only [hp, Bool.false_eq_true, if_false]
      rw [ih, List.infix_cons_iff]
      constructor
      · exact Or.inr
      · rintro (hpre | hinf)
        · exact absurd (( List.isPrefixOf_iff_prefix).mpr hpre) (by simp [hp])
        · exact hinf

/-- `strContains` decides substring containment on the underlying character
lists. -/
theorem strContains_iff_infixOf (haystack needle : String) :
    strContains haystack needle = true ↔ needle.toList <:+: haystack.toList := by
  unfold strContains
  exact listContainsSub_iff_infixOf _ _

/-- Closed form of the stash loop: `in_stash` ends true exactly when some
stash path matches, and `stash_count` is incremented once per matching
entry. -/
theorem stashScan_go (needle : String) :
    ∀ (ss : List Stash) (b : Bool) (m : Nat),
      ss.foldl
        (fun acc s => if strContains s.path needle then (true, acc.2 + 1) else acc)
        (b, m) =
      (b || ss.any (fun s => strContains s.path needle),
        m + (ss.filter (fun s => strContains s.path needle)).length) := by
  intro ss
  induction ss with
  | nil => intro b m; simp
  | cons s rest ih =>
    intro b m
    by_cases hc : strContains s.path needle
    · simp [List.foldl_cons, List.any_cons, List.filter_cons, hc, ih]
      omega
    · simp [List.foldl_cons, List.any_cons, List.filter_cons, hc, ih]

/-- `stashScan` in terms of `isSilenced` and `matchCount`. -/
theorem stashScan_eq (ss : List Stash) (client check : String) :
    stashScan ss (silencePath client check) =
      (isSilenced client check ss, matchCount ss client check) := by
  unfold stashScan isSilenced matchCount
  rw [stashScan_go]
  simp

/-- A non-silenced pair matches no stash entry. -/
theorem matchCount_eq_zero {client check : String} {ss : List Stash}
    (h : isSilenced client check ss = false) : matchCount ss client check = 0 := by
  unfold isSilenced at h
  unfold matchCount
  rw [List.length_eq_zero, List.filter_eq_nil_iff]
  intro s hs
  have := List.any_eq_false.mp h s hs
  simpa using this

/-- A silenced pair matches at least one stash entry. -/
theorem matchCount_pos {client check : String} {ss : List Stash}
    (h : isSilenced client check ss = true) : 1 ≤ matchCount ss client check := by
  unfold isSilenced at h
  obtain ⟨s, hs, hp⟩ := List.any_eq_true.mp h
  have hmem : s ∈ ss.filter fun x => strContains x.path (silencePath client check) :=
    List.mem_filter.mpr ⟨hs, hp⟩
  exact List.length_pos.mpr (List.ne_nil_of_mem hmem)

/-- One pass of the loop body (lines 162-204) adds each counter's per-event
contribution and appends the event's detail line. -/
theorem processEvent_eq (cf : String → Bool) (stashes : List Stash) (a : Acc)
    (e : Event) :
    processEvent cf stashes a e =
      ⟨a.critCount + deltaCrit cf stashes e,
       a.warnCount + deltaWarn cf stashes e,
       a.unknownCount + deltaUnknown cf stashes e,
       a.stashCount + deltaStash cf stashes e,
       a.filterCount + deltaFilter cf e,
       a.ext ++ deltaLine cf stashes e⟩ := by
  obtain ⟨c0, w0, u0, s0, f0, x0⟩ := a
  unfold processEvent deltaCrit deltaWarn deltaUnknown deltaStash deltaFilter
    deltaLine active
  by_cases hcf : cf e.clientName
  · rw [stashScan_eq]
    by_cases hsil : isSilenced e.clientName e.checkName stashes
    · simp [hcf, hsil, String.append_empty]
    · have hm := matchCount_eq_zero (show isSilenced e.clientName e.checkName stashes = false by simpa using hsil)
      rcases hstat : e.status with _ | _ | _ | _ | k
      · simp [hcf, hsil, hm, hstat, STATE_CRITICAL, STATE_WARNING,
          STATE_UNKNOWN, String.append_empty]
      · simp [hcf, hsil, hm, hstat, STATE_CRITICAL, STATE_WARNING,
          STATE_UNKNOWN, String.append_empty]
      · simp [hcf, hsil, hm, hstat, STATE_CRITICAL, STATE_WARNING,
          STATE_UNKNOWN, String.append_empty]
      · simp [hcf, hsil, hm, hstat, STATE_CRITICAL, STATE_WARNING,
          STATE_UNKNOWN, String.append_empty]
      · simp [hcf, hsil, hm, hstat, STATE_CRITICAL, STATE_WARNING,
          STATE_UNKNOWN, String.append_empty]
  · simp [hcf, String.append_empty]

/-- Closed form of the event loop from an arbitrary starting accumulator. -/
theorem foldl_processEvent_eq (cf : String → Bool) (stashes : List Stash) :
    ∀ (events : List Event) (a : Acc),
      events.foldl (processEvent cf stashes) a =
        ⟨a.critCount + (events.map (deltaCrit cf stashes)).sum,
         a.warnCount + (events.map (deltaWarn cf stashes)).sum,
         a.unknownCount + (events.map (deltaUnknown cf stashes)).sum,
         a.stashCount + (events.map (deltaStash cf stashes)).sum,
         a.filterCount + (events.map (deltaFilter cf)).sum,
         a.ext ++ strConcat (events.map (deltaLine cf stashes))⟩ := by
  intro events
  induction events with
  | nil =>
    intro a
    obtain ⟨c0, w0, u0, s0, f0, x0⟩ := a
    simp [strConcat, String.append_empty]
  | cons e es ih =>
    intro a
    rw [List.foldl_cons, processEvent_eq, ih]
    simp [List.map_cons, List.sum_cons, strConcat, Nat.add_assoc,
      String.append_assoc]

/-- Closed form of `classifyEvents`: every counter is the sum of the
events' contributions, and the detail text is their concatenation in input
order. -/
theorem classifyEvents_eq (cf : String → Bool) (stashes : List Stash)
    (events : List Event) :
    classifyEvents cf stashes events =
      ⟨(events.map (deltaCrit cf stashes)).sum,
       (events.map (deltaWarn cf stashes)).sum,
       (events.map (deltaUnknown cf stashes)).sum,
       (events.map (deltaStash cf stashes)).sum,
       (events.map (deltaFilter cf)).sum,
       strConcat (events.map (deltaLine cf stashes))⟩ := by
  unfold classifyEvents initAcc
  rw [foldl_processEvent_eq]
  simp [String.empty_append]

/-- The exit code of `format_json_and_exit`, read off the assignment chain of
lines 148, 156-231: because each later `if` overwrites the earlier result,
the effective precedence is stash/filter-totality, then UNKNOWN, CRITICAL,
WARNING, the empty-input OK, and finally the untouched initial UNKNOWN. -/
theorem formatJsonAndExit_code (events : List Event) (stashes : List Stash)
    (info : Option String) (cf : String → Bool) :
    (formatJsonAndExit events stashes info cf).2 =
      (let a := classifyEvents cf stashes events
       if (a.stashCount ≠ 0 ∨ a.filterCount ≠ 0) ∧
           (a.stashCount = events.length ∨ a.filterCount = events.length) then
         STATE_OK
       else if a.unknownCount ≠ 0 then STATE_UNKNOWN
       else if a.critCount ≠ 0 then STATE_CRITICAL
       else if a.warnCount ≠ 0 then STATE_WARNING
       else if events.isEmpty then STATE_OK
       else STATE_UNKNOWN) := by
  unfold formatJsonAndExit
  cases info <;> split_ifs <;> simp_all <;> split_ifs <;> simp_all

/-- Concatenating only empty strings yields the empty string. -/
theorem strConcat_all_empty {l : List String} (h : ∀ s ∈ l, s = "") :
    strConcat l = "" := by
  induction l with
  | nil => rfl
  | cons s r ih =>
    rw [strConcat, h s (List.mem_cons_self s r),
      ih fun x hx => h x (List.mem_cons_of_mem _ hx)]
    exact String.empty_append _

/-- The concatenated per-event detail contributions are exactly the formatted
lines of the in-scope, non-silenced, non-OK events, in input order. -/
theorem strConcat_map_deltaLine (cf : String → Bool) (stashes : List Stash)
    (l : List Event) :
    strConcat (l.map (deltaLine cf stashes)) =
      strConcat ((l.filter fun e => active cf stashes e &&
        (e.status == STATE_CRITICAL || e.status == STATE_WARNING ||
          e.status == STATE_UNKNOWN)).map fmtLine) := by
  induction l with
  | nil => rfl
  | cons e es ih =>
    by_cases hq : (active cf stashes e && (e.status == STATE_CRITICAL ||
        e.status == STATE_WARNING || e.status == STATE_UNKNOWN)) = true
    · simp only [List.map_cons, List.filter_cons, hq, if_true, strConcat,
        deltaLine, ih]
    · simp only [List.map_cons, List.filter_cons, hq, Bool.false_eq_true,
        if_false, strConcat, deltaLine, ih]
      rw [String.empty_append]

/-- Unfolding the spec-side OK count on a cons cell. -/
theorem okCount_cons (cf : String → Bool) (stashes : List Stash) (e : Event)
    (es : List Event) :
    okCount cf stashes (e :: es) =
      (if active cf stashes e && (e.status == STATE_OK) then 1 else 0) +
        okCount cf stashes es := by
  unfold okCount
  rw [List.filter_cons]
  by_cases hq : (active cf stashes e && (e.status == STATE_OK)) = true
  · simp [hq, Nat.add_comm]
  · simp [hq]

/-- Each event contributes exactly one unit across the six buckets, provided
its status is a real state when classified and it matches at most one stash
entry. -/
theorem delta_partition (cf : String → Bool) (stashes : List Stash) (e : Event)
    (h1 : active cf stashes e = true → e.status ≤ 3)
    (h2 : matchCount stashes e.clientName e.checkName ≤ 1) :
    (if active cf stashes e && (e.status == STATE_OK) then 1 else 0)
      + deltaWarn cf stashes e + deltaCrit cf stashes e
      + deltaUnknown cf stashes e + deltaFilter cf e
      + deltaStash cf stashes e = 1 := by
  unfold deltaWarn deltaCrit deltaUnknown deltaFilter deltaStash active at *
  by_cases hcf : cf e.clientName
  · by_cases hsil : isSilenced e.clientName e.checkName stashes
    · have hp := matchCount_pos hsil
      simp [hcf, hsil]
      omega
    · have hm := matchCount_eq_zero
        (show isSilenced e.clientName e.checkName stashes = false by
          simpa using hsil)
      have hs3 : e.status ≤ 3 := h1 (by simp [hcf, hsil])
      interval_cases hst : e.status <;>
        simp [hcf, hsil, hm, STATE_OK, STATE_WARNING, STATE_CRITICAL,
          STATE_UNKNOWN]
  · simp [hcf]

/-- Summed form of the bucket partition over a whole event list. -/
theorem sum_partition (cf : String → Bool) (stashes : List Stash) :
    ∀ events : List Event,
      (∀ e ∈ events, active cf stashes e = true → e.status ≤ 3) →
      (∀ e ∈ events, matchCount stashes e.clientName e.checkName ≤ 1) →
      okCount cf stashes events
        + (events.map (deltaWarn cf stashes)).sum
        + (events.map (deltaCrit cf stashes)).sum
        + (events.map (deltaUnknown cf stashes)).sum
        + (events.map (deltaFilter cf)).sum
        + (events.map (deltaStash cf stashes)).sum = events.length := by
  intro events
  induction events with
  | nil => intro _ _; simp [okCount]
  | cons e es ih =>
    intro h1 h2
    have hpart := delta_partition cf stashes e
      (h1 e (List.mem_cons_self e es))
      (h2 e (List.mem_cons_self e es))
    have hih := ih (fun x hx => h1 x (List.mem_cons_of_mem _ hx))
      (fun x hx => h2 x (List.mem_cons_of_mem _ hx))
    rw [okCount_cons]
    simp only [List.map_cons, List.sum_cons, List.length_cons]
    omega

/-- C10: for every input, the accumulated detail output is exactly one
formatted line `"<client> - <check>: <output>\n"` per in-scope, non-silenced
event whose status is CRITICAL, WARNING, or UNKNOWN, concatenated in
event-iteration order; OK-status, filtered, and silenced events contribute
nothing. -/
theorem detail_lines_per_event (cf : String → Bool) (stashes : List Stash)
    (events : List Event) :
    (classifyEvents cf stashes events).ext =
      strConcat ((events.filter fun e => active cf stashes e &&
        (e.status == STATE_CRITICAL || e.status == STATE_WARNING ||
          e.status == STATE_UNKNOWN)).map fmtLine) := by
  rw [classifyEvents_eq]
  exact strConcat_map_deltaLine cf stashes events

/-- C4 (amended): `isSilenced` is true exactly when some silence entry's
`path` contains `"silence/<clientName>/<checkName>"` as a plain substring
(Python's `in`), not as an exact slash-delimited segment sequence. -/
theorem isSilenced_iff_substring (client check : String)
    (stashes : List Stash) :
    isSilenced client check stashes = true ↔
      ∃ s ∈ stashes, (silencePath client check).toList <:+: s.path.toList := by
  unfold isSilenced
  rw [List.any_eq_true]
  constructor
  · rintro ⟨s, hs, hc⟩
    exact ⟨s, hs, (strContains_iff_infixOf _ _).mp hc⟩
  · rintro ⟨s, hs, hc⟩
    exact ⟨s, hs, (strContains_iff_infixOf _ _).mpr hc⟩

/-- C4 counterexample: the silence path `"silence/web01/disk-check"` also
silences the pair (`web01`, `disk`), whose check name is merely a prefix of
`disk-check`, so the matching is not an exact segment match. -/
theorem silence_substring_cex :
    isSilenced "web01" "disk" [⟨"silence/web01/disk-check"⟩] = true ∧
      ("disk" : String) ≠ "disk-check" := by
  exact ⟨rfl, by decide⟩

/-- C6 (amended): the stashed counter is incremented once per matching
silence entry — an in-scope event matched by `k` entries adds `k`, not at
most 1. -/
theorem stash_count_per_match (cf : String → Bool) (stashes : List Stash)
    (events : List Event) :
    (classifyEvents cf stashes events).stashCount =
      (events.map (deltaStash cf stashes)).sum := by
  rw [classifyEvents_eq]

/-- C6 counterexample: one event matched by two duplicate silence entries
increments the stashed counter twice. -/
theorem stash_double_count_cex :
    (classifyEvents cfTrue dupStashes [evSilencedOk]).stashCount = 2 ∧
      ([evSilencedOk] : List Event).length = 1 := by
  decide

/-- C7: an input containing an in-scope, non-silenced CRITICAL event on which
the check exits 0: two duplicate silence entries matching the other event
inflate the stashed count to the total event count, and the OK branch of
lines 228-231, evaluated after the severity assignments, overwrites the
CRITICAL result. -/
theorem inflated_stash_masks_critical :
    evCritical ∈ [evSilencedOk, evCritical] ∧
    cfTrue evCritical.clientName = true ∧
    isSilenced evCritical.clientName evCritical.checkName dupStashes = false ∧
    evCritical.status = STATE_CRITICAL ∧
    (formatJsonAndExit [evSilencedOk, evCritical] dupStashes none cfTrue).2 =
      STATE_OK := by
  decide

/-- C8 (amended): an invalid client-filter pattern raises inside
`format_json_and_exit` (line 160), which runs only after the events and
stashes have been fetched, and the top-level handler of lines 322-329 turns
the exception into exit code CRITICAL (2), not UNKNOWN (3). -/
theorem invalid_filter_exits_critical (events : List Event)
    (stashes : List Stash) (info : Option String) (msg : String) :
    mainExitCode (formatJsonAndExitCompiled events stashes info
      (Except.error msg)) = STATE_CRITICAL :=
  rfl

/-- C8 counterexample: a pattern whose compilation fails makes the check exit
with code 2, which is not the UNKNOWN code 3 the claim requires. -/
theorem invalid_filter_cex :
    mainExitCode (formatJsonAndExitCompiled [] [] none
      (Except.error "unbalanced parenthesis")) = STATE_CRITICAL ∧
    STATE_CRITICAL ≠ STATE_UNKNOWN := by
  decide

/-- C9: evaluating the loop on an event record with no `check` field raises
`AttributeError` (line 168, `check.get('status')` on `None`) instead of
excluding the record; the exception aborts the whole check and the top-level
handler exits CRITICAL. -/
theorem malformed_event_crashes :
    formatJsonAndExitRaw [rawMissingCheck] [] none cfTrue =
      Except.error "AttributeError" ∧
    mainExitCode (formatJsonAndExitRaw [rawMissingCheck] [] none cfTrue) =
      STATE_CRITICAL := by
  exact ⟨rfl, rfl⟩

/-- C1 (amended): on a non-empty event list where every event is in scope,
none is silenced, and every status is OK, no assignment of lines 212-231
fires: the exit code stays at the initial UNKNOWN (3) of line 148 and the
output is the bare count suffix of line 234, with empty summary and empty
detail lines — not the claimed OK result. -/
theorem all_ok_falls_through (events : List Event) (stashes : List Stash)
    (cf : String → Bool)
    (hne : events ≠ [])
    (hcf : ∀ e ∈ events, cf e.clientName = true)
    (hsil : ∀ e ∈ events, isSilenced e.clientName e.checkName stashes = false)
    (hok : ∀ e ∈ events, e.status = STATE_OK) :
    formatJsonAndExit events stashes none cf =
      (" (0 in stash & 0 filtered.)\n", STATE_UNKNOWN) := by
  have hclass : classifyEvents cf stashes events = ⟨0, 0, 0, 0, 0, ""⟩ := by
    rw [classifyEvents_eq]
    have hc : (events.map (deltaCrit cf stashes)).sum = 0 := by
      refine List.sum_eq_zero fun x hx => ?_
      obtain ⟨e, he, rfl⟩ := List.mem_map.mp hx
      simp [deltaCrit, active, hcf e he, hsil e he, hok e he, STATE_OK,
        STATE_CRITICAL]
    have hw : (events.map (deltaWarn cf stashes)).sum = 0 := by
      refine List.sum_eq_zero fun x hx => ?_
      obtain ⟨e, he, rfl⟩ := List.mem_map.mp hx
      simp [deltaWarn, active, hcf e he, hsil e he, hok e he, STATE_OK,
        STATE_WARNING]
    have hu : (events.map (deltaUnknown cf stashes)).sum = 0 := by
      refine List.sum_eq_zero fun x hx => ?_
      obtain ⟨e, he, rfl⟩ := List.mem_map.mp hx
      simp [deltaUnknown, active, hcf e he, hsil e he, hok e he, STATE_OK,
        STATE_UNKNOWN]
    have hs : (events.map (deltaStash cf stashes)).sum = 0 := by
      refine List.sum_eq_zero fun x hx => ?_
      obtain ⟨e, he, rfl⟩ := List.mem_map.mp hx
      simp [deltaStash, hcf e he, matchCount_eq_zero (hsil e he)]
    have hf : (events.map (deltaFilter cf)).sum = 0 := by
      refine List.sum_eq_zero fun x hx => ?_
      obtain ⟨e, he, rfl⟩ := List.mem_map.mp hx
      simp [deltaFilter, hcf e he]
    have hx : strConcat (events.map (deltaLine cf stashes)) = "" := by
      refine strConcat_all_empty fun s hs => ?_
      obtain ⟨e, he, rfl⟩ := List.mem_map.mp hs
      simp [deltaLine, active, hcf e he, hsil e he, hok e he, STATE_OK,
        STATE_CRITICAL, STATE_WARNING, STATE_UNKNOWN]
    rw [hc, hw, hu, hs, hf, hx]
  have hempty : events.isEmpty = false := by
    cases events with
    | nil => exact absurd rfl hne
    | cons _ _ => rfl
  unfold formatJsonAndExit
  rw [hclass, hempty]
  simp
  rfl

/-- C1 witness: one in-scope OK event, no stashes — the code exits UNKNOWN
with empty summary and empty detail. -/
theorem all_ok_falls_through_witness :
    (([evSilencedOk] : List Event) ≠ []) ∧
    formatJsonAndExit [evSilencedOk] [] none cfTrue =
      (" (0 in stash & 0 filtered.)\n", STATE_UNKNOWN) :=
  ⟨by decide, all_ok_falls_through [evSilencedOk] [] cfTrue (by decide)
    (by decide) (by decide) (by decide)⟩

/-- C1 counterexample: an all-OK, in-scope, non-silenced, non-empty input on
which the claimed overall severity OK fails — the check exits with the
UNKNOWN code 3. -/
theorem all_ok_not_ok_cex :
    cfTrue evSilencedOk.clientName = true ∧
    isSilenced evSilencedOk.clientName evSilencedOk.checkName [] = false ∧
    evSilencedOk.status = STATE_OK ∧
    (formatJsonAndExit [evSilencedOk] [] none cfTrue).2 = STATE_UNKNOWN ∧
    STATE_UNKNOWN ≠ STATE_OK := by
  decide

/-- C2 (amended): an in-scope, non-silenced UNKNOWN event forces overall
severity UNKNOWN regardless of coexisting CRITICAL events, provided neither
the stashed count nor the filtered count equals the total event count
(otherwise the OK branch of lines 228-231 overwrites the result). -/
theorem unknown_event_gives_unknown (events : List Event)
    (stashes : List Stash) (info : Option String) (cf : String → Bool)
    (e : Event)
    (hmem : e ∈ events) (hcf : cf e.clientName = true)
    (hsil : isSilenced e.clientName e.checkName stashes = false)
    (hstat : e.status = STATE_UNKNOWN)
    (hs : (classifyEvents cf stashes events).stashCount ≠ events.length)
    (hf : (classifyEvents cf stashes events).filterCount ≠ events.length) :
    (formatJsonAndExit events stashes info cf).2 = STATE_UNKNOWN := by
  have hδ : deltaUnknown cf stashes e = 1 := by
    simp [deltaUnknown, active, hcf, hsil, hstat, STATE_UNKNOWN]
  have hmm : deltaUnknown cf stashes e ∈ events.map (deltaUnknown cf stashes) :=
    List.mem_map_of_mem _ hmem
  have hsum : 1 ≤ (events.map (deltaUnknown cf stashes)).sum := by
    calc (1 : Nat) = deltaUnknown cf stashes e := hδ.symm
      _ ≤ _ := List.single_le_sum (fun x _ => Nat.zero_le x) _ hmm
  have hu : (classifyEvents cf stashes events).unknownCount ≠ 0 := by
    rw [classifyEvents_eq]
    show (events.map (deltaUnknown cf stashes)).sum ≠ 0
    omega
  rw [formatJsonAndExit_code]
  dsimp only
  rw [if_neg, if_pos hu]
  rintro ⟨-, h2⟩
  rcases h2 with h2 | h2
  · exact hs h2
  · exact hf h2

/-- C2 witness: a single in-scope, non-silenced UNKNOWN event yields exit
code 3. -/
theorem unknown_event_gives_unknown_witness :
    (evUnknown ∈ ([evUnknown] : List Event)) ∧
    (formatJsonAndExit [evUnknown] [] none cfTrue).2 = STATE_UNKNOWN :=
  ⟨by decide, unknown_event_gives_unknown [evUnknown] [] none cfTrue evUnknown
    (by decide) (by decide) (by decide) (by decide) (by decide) (by decide)⟩

/-- C2 counterexample: an input with an in-scope, non-silenced UNKNOWN event
on which the check exits 0, because two duplicate silence entries matching
the other event inflate the stashed count to the event total. -/
theorem unknown_flipped_to_ok_cex :
    evUnknown ∈ [evSilencedOk, evUnknown] ∧
    cfTrue evUnknown.clientName = true ∧
    isSilenced evUnknown.clientName evUnknown.checkName dupStashes = false ∧
    evUnknown.status = STATE_UNKNOWN ∧
    (formatJsonAndExit [evSilencedOk, evUnknown] dupStashes none cfTrue).2 =
      STATE_OK ∧
    STATE_OK ≠ STATE_UNKNOWN := by
  decide

/-- C3 (amended): with no in-scope, non-silenced event of severity WARNING,
CRITICAL, or UNKNOWN, the resolver yields OK with the summary
`"OK: no ongoing events returned by Sensu API."` exactly when the stashed
count alone, or the filtered count alone, equals the total event count
(line 229 tests each against the total separately, not their sum). -/
theorem all_stashed_or_filtered_ok (events : List Event)
    (stashes : List Stash) (info : Option String) (cf : String → Bool)
    (hne : events ≠ [])
    (hsev : ∀ e ∈ events, active cf stashes e = true →
      e.status ≠ STATE_WARNING ∧ e.status ≠ STATE_CRITICAL ∧
        e.status ≠ STATE_UNKNOWN)
    (hall : (classifyEvents cf stashes events).stashCount = events.length ∨
      (classifyEvents cf stashes events).filterCount = events.length) :
    (formatJsonAndExit events stashes info cf).2 = STATE_OK ∧
    ∃ rest, (formatJsonAndExit events stashes info cf).1 =
      "OK: no ongoing events returned by Sensu API." ++ rest := by
  have hlen : events.length ≠ 0 := by
    simpa [List.length_eq_zero] using hne
  have hguard1 : (classifyEvents cf stashes events).stashCount ≠ 0 ∨
      (classifyEvents cf stashes events).filterCount ≠ 0 := by
    rcases hall with h | h
    · exact Or.inl (by omega)
    · exact Or.inr (by omega)
  constructor
  · rw [formatJsonAndExit_code]
    dsimp only
    rw [if_pos ⟨hguard1, hall⟩]
  · unfold formatJsonAndExit
    dsimp only
    rw [if_pos ⟨hguard1, hall⟩]
    cases info with
    | none => exact ⟨_, rfl⟩
    | some i =>
      dsimp only
      by_cases hi : i.isEmpty
      · rw [if_pos hi]
        exact ⟨_, rfl⟩
      · rw [if_neg hi]
        exact ⟨_, String.append_assoc _ _ _⟩

/-- C3 witness: one silenced event, stashed count equals the total, exit
code 0. -/
theorem all_stashed_or_filtered_ok_witness :
    (([evSilencedOk] : List Event) ≠ []) ∧
    (formatJsonAndExit [evSilencedOk] oneStash none cfTrue).2 = STATE_OK :=
  ⟨by decide, (all_stashed_or_filtered_ok [evSilencedOk] oneStash none cfTrue
    (by decide) (by decide) (by decide)).1⟩

/-- C3 counterexample: one filtered event plus one silenced event — the
stashed and filtered counts sum to the total event count, yet neither branch
of line 229 fires and the check exits UNKNOWN (3), not OK. -/
theorem mixed_stash_filter_cex :
    (classifyEvents cfOnlyB stashB [evFilteredX, evSilencedB]).stashCount +
      (classifyEvents cfOnlyB stashB [evFilteredX, evSilencedB]).filterCount =
      ([evFilteredX, evSilencedB] : List Event).length ∧
    (formatJsonAndExit [evFilteredX, evSilencedB] stashB none cfOnlyB).2 =
      STATE_UNKNOWN ∧
    STATE_UNKNOWN ≠ STATE_OK := by
  decide

/-- C5 (amended): the OK, WARNING, CRITICAL, UNKNOWN, filtered, and stashed
counts sum to the event-list length, provided every classified event's status
is one of the four states and no event matches more than one silence entry
(duplicate matching entries inflate the stashed count, and statuses outside
0..3 fall into no bucket). -/
theorem counts_partition (cf : String → Bool) (stashes : List Stash)
    (events : List Event)
    (h1 : ∀ e ∈ events, active cf stashes e = true → e.status ≤ 3)
    (h2 : ∀ e ∈ events, matchCount stashes e.clientName e.checkName ≤ 1) :
    okCount cf stashes events
      + (classifyEvents cf stashes events).warnCount
      + (classifyEvents cf stashes events).critCount
      + (classifyEvents cf stashes events).unknownCount
      + (classifyEvents cf stashes events).filterCount
      + (classifyEvents cf stashes events).stashCount = events.length := by
  have hsum := sum_partition cf stashes events h1 h2
  rw [classifyEvents_eq]
  dsimp only
  omega

/-- C5 witness: one silenced event and one critical event partition into the
six buckets and sum to 2. -/
theorem counts_partition_witness :
    (∀ e ∈ ([evSilencedOk, evCritical] : List Event),
      matchCount oneStash e.clientName e.checkName ≤ 1) ∧
    okCount cfTrue oneStash [evSilencedOk, evCritical]
      + (classifyEvents cfTrue oneStash [evSilencedOk, evCritical]).warnCount
      + (classifyEvents cfTrue oneStash [evSilencedOk, evCritical]).critCount
      + (classifyEvents cfTrue oneStash [evSilencedOk, evCritical]).unknownCount
      + (classifyEvents cfTrue oneStash [evSilencedOk, evCritical]).filterCount
      + (classifyEvents cfTrue oneStash [evSilencedOk, evCritical]).stashCount =
      ([evSilencedOk, evCritical] : List Event).length :=
  ⟨by decide, counts_partition cfTrue oneStash [evSilencedOk, evCritical]
    (by decide) (by decide)⟩

/-- C5 counterexample: duplicate silence entries make the six buckets sum to
2 for a single event, and a status outside 0..3 makes them sum to 0 for a
single event — in both cases not the event-list length. -/
theorem counts_partition_cex :
    okCount cfTrue dupStashes [evSilencedOk]
      + (classifyEvents cfTrue dupStashes [evSilencedOk]).warnCount
      + (classifyEvents cfTrue dupStashes [evSilencedOk]).critCount
      + (classifyEvents cfTrue dupStashes [evSilencedOk]).unknownCount
      + (classifyEvents cfTrue dupStashes [evSilencedOk]).filterCount
      + (classifyEvents cfTrue dupStashes [evSilencedOk]).stashCount = 2 ∧
    ([evSilencedOk] : List Event).length = 1 ∧
    okCount cfTrue [] [evStatusSeven]
      + (classifyEvents cfTrue [] [evStatusSeven]).warnCount
      + (classifyEvents cfTrue [] [evStatusSeven]).critCount
      + (classifyEvents cfTrue [] [evStatusSeven]).unknownCount
      + (classifyEvents cfTrue [] [evStatusSeven]).filterCount
      + (classifyEvents cfTrue [] [evStatusSeven]).stashCount = 0 ∧
    ([evStatusSeven] : List Event).length = 1 := by
  decide
